import Mathlib

/-!
Shallow embedding of the SysImpactCV attack-policy core
(`src/sysimpactcv/attacks.py`, `src/sysimpactcv/runner.py`, and the
`src/cookie-cutter/attacks.py` variant where it differs).

The TraCI session is modelled as a per-step read-only snapshot `Env`
(live-vehicle list, per-vehicle type / lane position / speed / lane id,
this step's collision reports, current simulation time).  Every TraCI
write performed by a policy is recorded as a `Cmd` value; a policy step
returns its updated state together with the list of commands it issued,
in program order.  Python floats are embedded as exact rationals, Python
dicts keyed by vehicle id as total functions with an explicit default
(`false` for completion maps, `none` for tracking maps), and Python
`raise ValueError` as `Except.error`.
-/

namespace SysImpactCV

/-- Python's substring test `needle in haystack`, on the character list of
the haystack. -/
def containsSubAux (n : List Char) : List Char → Bool
  | [] => n.isEmpty
  | c :: rest => n.isPrefixOf (c :: rest) || containsSubAux n rest

/-- Python's substring test `needle in haystack` for strings
(used for `target_type in traci.vehicle.getTypeID(vid)`). -/
def containsSub (needle haystack : String) : Bool :=
  containsSubAux needle.toList haystack.toList

/-- One entry of `traci.simulation.getCollisions()` for the current step. -/
structure Collision where
  collider : String
  victim : String
  colliderSpeed : ℚ
  victimSpeed : ℚ
  lane : String
  pos : ℚ
deriving DecidableEq

/-- Read-only snapshot of the simulation session at one step:
`idList` is `traci.vehicle.getIDList()`, the other fields embed the
per-vehicle getters, the collision list and `traci.simulation.getTime()`. -/
structure Env where
  idList : List String
  typeOf : String → String
  lanePos : String → ℚ
  speed : String → ℚ
  laneOf : String → String
  collisions : List Collision
  time : ℚ

/-- A TraCI write command issued by a policy, tagged with the vehicle it
addresses. -/
inductive Cmd where
  | setSpeedMode (vid : String) (mode : Int)
  | setLaneChangeMode (vid : String) (mode : Int)
  | setSpeed (vid : String) (speed : ℚ)
  | setAcceleration (vid : String) (accel dur : ℚ)
  | slowDown (vid : String) (speed dur : ℚ)
  | setMaxSpeed (vid : String) (speed : ℚ)
  | changeLane (vid : String) (lane : Int) (dur : ℚ)
deriving DecidableEq

/-- The vehicle a command addresses. -/
def Cmd.vid : Cmd → String
  | .setSpeedMode v _ => v
  | .setLaneChangeMode v _ => v
  | .setSpeed v _ => v
  | .setAcceleration v _ _ => v
  | .slowDown v _ _ => v
  | .setMaxSpeed v _ => v
  | .changeLane v _ _ => v

/-- Pointwise update of a completion map (`success_map[vid] = b`). -/
def updMap (m : String → Bool) (k : String) (b : Bool) : String → Bool :=
  fun x => if x = k then b else m x

/-- Pointwise update of a tracking map (`sl[vid] = x` / `sl.pop(vid)`). -/
def updTrk (sl : String → Option ℚ) (k : String) (x : Option ℚ) : String → Option ℚ :=
  fun y => if y = k then x else sl y

/-- `emergency_brake` from `src/sysimpactcv/attacks.py` (lines 5-30).
State is the scalar `attack_success` flag; the result pairs the new flag
with the commands issued this step.  Note line 26 of the source reads the
speed of the fixed vehicle `"ego"`, not of `vehicle_id`. -/
def emergency_brake (env : Env) (vehicle_id : String)
    (stop_position emergency_deceleration : ℚ) (attack_success : Bool) :
    Bool × List Cmd :=
  if attack_success then (true, [])
  else if vehicle_id ∈ env.idList then
    let pos := env.lanePos vehicle_id
    if stop_position ≤ pos then
      let time_to_stop := env.speed "ego" / |emergency_deceleration|
      (true, [.setSpeedMode vehicle_id 0, .setLaneChangeMode vehicle_id 0,
              .slowDown vehicle_id 0 time_to_stop])
    else (false, [])
  else (false, [])

/-- `emergency_brake` from `src/cookie-cutter/attacks.py` (lines 4-30):
no deceleration parameter, a hard `setSpeed 0` instead of a ramp, and an
`else` branch that records success when the vehicle has left the
simulation. -/
def emergency_brake_cc (env : Env) (vehicle_id : String)
    (stop_position : ℚ) (attack_success : Bool) : Bool × List Cmd :=
  if attack_success then (true, [])
  else if vehicle_id ∈ env.idList then
    let pos := env.lanePos vehicle_id
    if stop_position ≤ pos then
      (true, [.setSpeedMode vehicle_id 0, .setLaneChangeMode vehicle_id 0,
              .setSpeed vehicle_id 0])
    else (false, [])
  else (true, [])

/-- Threading `emergency_brake` through a run: one invocation per step
snapshot, commands collected in step order. -/
def emergency_brake_trace (vid : String) (sp dec : ℚ) :
    List Env → Bool → Bool × List Cmd
  | [], s => (s, [])
  | e :: es, s =>
    let p := emergency_brake e vid sp dec s
    let r := emergency_brake_trace vid sp dec es p.1
    (r.1, p.2 ++ r.2)

/-- The four `traci` calls that halt one collision participant in
`rear_end_collision` (lines 96-100 of `src/sysimpactcv/attacks.py`). -/
def haltCmds (v : String) : List Cmd :=
  [.setAcceleration v 0 0, .setSpeed v 0, .setSpeedMode v (-1),
   .setLaneChangeMode v (-1)]

/-- Body of the per-vehicle loop of `rear_end_collision`
(lines 75-103 of `src/sysimpactcv/attacks.py`): skip a finished target,
mark a departed target done, otherwise disable safety arbitration, apply
the aggressive acceleration, and process the first collision report whose
collider is this target. -/
def rear_end_vehicle (env : Env) (aggressive_accel : ℚ)
    (m : String → Bool) (vid : String) : (String → Bool) × List Cmd :=
  if m vid then (m, [])
  else if vid ∈ env.idList then
    let base : List Cmd :=
      [.setSpeedMode vid 0, .setLaneChangeMode vid 0,
       .setAcceleration vid aggressive_accel 1]
    match env.collisions.find? (fun c => c.collider == vid) with
    | none => (m, base)
    | some coll =>
      (updMap m vid true, base ++ haltCmds vid ++ haltCmds coll.victim)
  else (updMap m vid true, [])

/-- The `for vid in vehicles` loop of `rear_end_collision`, threading the
completion map and concatenating commands in program order. -/
def rear_end_loop (env : Env) (a : ℚ) :
    List String → (String → Bool) → (String → Bool) × List Cmd
  | [], m => (m, [])
  | vid :: rest, m =>
    let p := rear_end_vehicle env a m vid
    let q := rear_end_loop env a rest p.1
    (q.1, p.2 ++ q.2)

/-- `rear_end_collision` from `src/sysimpactcv/attacks.py` (lines 32-103):
raise if neither selection mode is supplied, otherwise resolve the target
list (the explicit id list takes precedence; the type substring is matched
against the current population) and run the per-vehicle loop. -/
def rear_end_collision (env : Env) (aggressive_accel : ℚ)
    (target_vehicles : Option (List String)) (target_type : Option String)
    (m : String → Bool) : Except String ((String → Bool) × List Cmd) :=
  match target_vehicles, target_type with
  | none, none => .error "Must provide either target_vehicles or target_type"
  | some l, _ => .ok (rear_end_loop env aggressive_accel l m)
  | none, some tt =>
    .ok (rear_end_loop env aggressive_accel
      (env.idList.filter (fun vid => containsSub tt (env.typeOf vid))) m)

/-- Extract the successful result of a `rear_end_collision` invocation
(the identity state and no commands when it raised). -/
def rearOk (e : Except String ((String → Bool) × List Cmd)) :
    (String → Bool) × List Cmd :=
  match e with
  | .ok p => p
  | .error _ => (fun _ => false, [])

/-- Threading `rear_end_collision` through a run.  A raised `ValueError`
aborts the run with the state unchanged, as the exception would in the
Python step loop. -/
def rear_end_trace (a : ℚ) (tv : Option (List String)) (tt : Option String) :
    List Env → (String → Bool) → (String → Bool) × List Cmd
  | [], m => (m, [])
  | e :: es, m =>
    match rear_end_collision e a tv tt m with
    | .error _ => (m, [])
    | .ok p =>
      let r := rear_end_trace a tv tt es p.1
      (r.1, p.2 ++ r.2)

/-- Body of the per-vehicle loop of `vsl_control`
(lines 164-186 of `src/sysimpactcv/attacks.py`): non-CAV types are
skipped, an in-zone vehicle above the target gets a ramp and a tracker
entry, an in-zone vehicle at or below the target gets its max speed
pinned, and an out-of-zone vehicle gets the default max speed restored
and its tracker entry popped. -/
def vsl_vehicle (env : Env) (target_speed zone_min zone_max default_speed max_decel : ℚ)
    (sl : String → Option ℚ) (vid : String) : (String → Option ℚ) × List Cmd :=
  if containsSub "CAV" (env.typeOf vid) then
    let pos := env.lanePos vid
    let curr := env.speed vid
    if zone_min < pos ∧ pos < zone_max then
      if target_speed < curr then
        let decel_time := (curr - target_speed) / |max_decel|
        (updTrk sl vid (some target_speed), [.slowDown vid target_speed decel_time])
      else (sl, [.setMaxSpeed vid target_speed])
    else (updTrk sl vid none, [.setMaxSpeed vid default_speed])
  else (sl, [])

/-- The `for vid in traci.vehicle.getIDList()` loop of `vsl_control`. -/
def vsl_loop (env : Env) (ts zmin zmax ds md : ℚ) :
    List String → (String → Option ℚ) → (String → Option ℚ) × List Cmd
  | [], sl => (sl, [])
  | vid :: rest, sl =>
    let p := vsl_vehicle env ts zmin zmax ds md sl vid
    let q := vsl_loop env ts zmin zmax ds md rest p.1
    (q.1, p.2 ++ q.2)

/-- `vsl_control` from `src/sysimpactcv/attacks.py` (lines 131-186).
The state is the `slowing_vehicles` tracking map; the mph target is
converted to m/s once (`* 0.44704`). -/
def vsl_control (env : Env)
    (vsl_mph zone_min zone_max default_speed_mps max_deceleration : ℚ)
    (sl : String → Option ℚ) : (String → Option ℚ) × List Cmd :=
  vsl_loop env (vsl_mph * 0.44704) zone_min zone_max default_speed_mps
    max_deceleration env.idList sl

/-- Commands issued to one vehicle by `lane_closure`
(lines 105-129 of `src/sysimpactcv/attacks.py`). -/
def lane_closure_vehicle (env : Env) (lane_id : String) (merge_to_lane : Int)
    (detection_min detection_max : ℚ) (vid : String) : List Cmd :=
  if containsSub "CAV" (env.typeOf vid) then
    let cur_lane := env.laneOf vid
    let pos := env.lanePos vid
    if cur_lane = lane_id then
      if detection_min ≤ pos ∧ pos < detection_max then
        [.changeLane vid merge_to_lane 2]
      else if detection_max ≤ pos then
        [.setSpeed vid 0, .changeLane vid merge_to_lane 2]
      else []
    else [.setSpeed vid (-1)]
  else []

/-- `lane_closure` from `src/sysimpactcv/attacks.py` (lines 105-129):
stateless, re-evaluated for the whole current population every step. -/
def lane_closure (env : Env) (lane_id : String) (merge_to_lane : Int)
    (detection_min detection_max : ℚ) : List Cmd :=
  (env.idList.map
    (lane_closure_vehicle env lane_id merge_to_lane detection_min detection_max)).flatten

/-- Commands issued to one selected vehicle by `set_target_speed`
(lines 225-246 of `src/sysimpactcv/attacks.py`). -/
def target_speed_vehicle (env : Env) (target_speed_mps accel_rate : ℚ)
    (vid : String) : List Cmd :=
  if vid ∈ env.idList then
    let curr := env.speed vid
    let mid : List Cmd :=
      if curr < target_speed_mps then [.setAcceleration vid accel_rate 1]
      else if target_speed_mps < curr then
        let decel := -|accel_rate|
        let dur := if decel ≠ 0 then (curr - target_speed_mps) / |decel| else 0
        if 0 < dur then [.slowDown vid target_speed_mps dur] else []
      else []
    [.setSpeedMode vid 0, .setLaneChangeMode vid 0] ++ mid
      ++ [.setMaxSpeed vid target_speed_mps]
  else []

/-- `set_target_speed` from `src/sysimpactcv/attacks.py` (lines 188-246):
same dual-mode selection and validation as `rear_end_collision`; the
state dict is unused. -/
def set_target_speed (env : Env) (target_speed_mps accel_rate : ℚ)
    (target_vehicles : Option (List String)) (target_type : Option String) :
    Except String (List Cmd) :=
  match target_vehicles, target_type with
  | none, none => .error "Must provide target_vehicles or target_type"
  | some l, _ =>
    .ok ((l.map (target_speed_vehicle env target_speed_mps accel_rate)).flatten)
  | none, some tt =>
    .ok (((env.idList.filter (fun vid => containsSub tt (env.typeOf vid))).map
      (target_speed_vehicle env target_speed_mps accel_rate)).flatten)

/-- `_vsl_step` from `src/sysimpactcv/attacks.py` (lines 275-279):
pin every listed vehicle's max speed to the mph target converted to m/s. -/
def vslStepCmds (vehicle_ids : List String) (target_mph : ℚ) : List Cmd :=
  vehicle_ids.map (fun v => .setMaxSpeed v (target_mph * 0.44704))

/-- The schedule loop of `rsu_spoofing` (lines 265-267): every entry whose
interval satisfies `t0 < cur_t ≤ t1` fires `_vsl_step`, in schedule
order. -/
def schedCmds (vids : List String) (t : ℚ) : List (ℚ × ℚ × ℚ) → List Cmd
  | [] => []
  | (t0, t1, mph) :: rest =>
    (if t0 < t ∧ t ≤ t1 then vslStepCmds vids mph else []) ++ schedCmds vids t rest

/-- The in-zone CAV selection of `rsu_spoofing` (lines 260-264). -/
def rsuVids (env : Env) (zone : ℚ × ℚ) : List String :=
  env.idList.filter (fun vid =>
    containsSub "CAV" (env.typeOf vid)
      && decide (zone.1 < env.lanePos vid) && decide (env.lanePos vid < zone.2))

/-- `rsu_spoofing` from `src/sysimpactcv/attacks.py` (lines 248-271):
the time-gated VSL schedule over in-zone CAVs, followed by `lane_closure`
once the current time has reached `lane_close_t`. -/
def rsu_spoofing (env : Env) (vsl_sched : List (ℚ × ℚ × ℚ))
    (lane_close_t : ℚ) (zone : ℚ × ℚ) (lane_id : String)
    (merge_to_lane : Int) (detection_min detection_max : ℚ) : List Cmd :=
  schedCmds (rsuVids env zone) env.time vsl_sched ++
    (if lane_close_t ≤ env.time then
      lane_closure env lane_id merge_to_lane detection_min detection_max
     else [])

/-- The keys of the `ATTACK_FN` dispatch table in
`src/sysimpactcv/runner.py` (lines 21-27); note the composite attack is
registered under the key `"scenario3"`. -/
def attackFnKeys : List String :=
  ["emergency_brake", "rear_end", "lane_closure", "scenario3"]

/-- The configuration-time check of `runner.main`
(lines 70-72): an attack type outside `ATTACK_FN` is fatal. -/
def validateAttackType (attack_type : String) : Except String Unit :=
  if attackFnKeys.contains attack_type then .ok ()
  else .error ("Attack '" ++ attack_type ++ "' not implemented")

/-- Whether the step loop of `runner.main` (lines 133-167) invokes the
configured attack function on a step: the mode must equal the attack
type, and the type must hit one of the four hard-coded dispatch
branches (`"emergency_brake"`, `"rear_end"`, `"lane_closure"`,
`"rsu_spoofing"`). -/
def dispatchPolicy (mode attack_type : String) : Bool :=
  if mode = attack_type then
    if attack_type = "emergency_brake" then true
    else if attack_type = "rear_end" then true
    else if attack_type = "lane_closure" then true
    else if attack_type = "rsu_spoofing" then true
    else false
  else false

/-- The samplers `runner.main` runs on a step (lines 169-182): the
detector poll on every tenth step, the brake and collision polls on
every step.  The mode argument is ignored, mirroring the sampler block
sitting outside the `if mode == attack_type` guard. -/
def stepSamplers (_mode : String) (stepCounter : Nat) : List String :=
  (if stepCounter % 10 = 0 then ["detectors"] else []) ++ ["brakes", "collisions"]

/-- Lifecycle events of one `(mode, seed)` run of `runner.main`. -/
inductive RunEvent where
  | sessionOpen
  | stepAdvance
  | policyError (msg : String)
  | sessionClose
deriving DecidableEq

/-- The step loop of a `rear_end` run: each step advances the session and
then invokes the policy; a raised `ValueError` escapes the loop (so the
session is never closed on that path). -/
def rear_end_run_loop (a : ℚ) (tv : Option (List String)) (tt : Option String) :
    List Env → (String → Bool) → List RunEvent
  | [], _ => [.sessionClose]
  | e :: es, m =>
    match rear_end_collision e a tv tt m with
    | .error msg => [.stepAdvance, .policyError msg]
    | .ok p => .stepAdvance :: rear_end_run_loop a tv tt es p.1

/-- One `rear_end` run of `runner.main`: `traci.start` (line 119) opens
the session before the step loop begins; the selection check inside
`rear_end_collision` only runs once the loop invokes the policy. -/
def rear_end_run (a : ℚ) (tv : Option (List String)) (tt : Option String)
    (envs : List Env) : List RunEvent :=
  .sessionOpen :: rear_end_run_loop a tv tt envs (fun _ => false)

/-! ### Helper lemmas on the completion maps of `rear_end_collision` -/

/-- Setting any key to `true` preserves a `true` entry. -/
theorem updMap_true (m : String → Bool) (k v : String) (h : m v = true) :
    updMap m k true v = true := by
  unfold updMap
  by_cases hv : v = k <;> simp [hv, h]

/-- One iteration of the `rear_end_collision` vehicle loop never clears a
completion entry. -/
theorem rear_end_vehicle_mono (env : Env) (a : ℚ) (m : String → Bool)
    (w v : String) (h : m v = true) :
    (rear_end_vehicle env a m w).1 v = true := by
  unfold rear_end_vehicle
  split
  · exact h
  · split
    · split
      · exact h
      · exact updMap_true m w v h
    · exact updMap_true m w v h

/-- The whole `rear_end_collision` vehicle loop never clears a completion
entry. -/
theorem rear_end_loop_mono (env : Env) (a : ℚ) (l : List String)
    (m : String → Bool) (v : String) (h : m v = true) :
    (rear_end_loop env a l m).1 v = true := by
  induction l generalizing m with
  | nil => exact h
  | cons w rest ih => exact ih _ (rear_end_vehicle_mono env a m w v h)

/-- A successful `rear_end_collision` step never clears a completion
entry. -/
theorem rear_end_collision_mono (env : Env) (a : ℚ)
    (tv : Option (List String)) (tt : Option String) (m : String → Bool)
    (p : (String → Bool) × List Cmd) (v : String)
    (hok : rear_end_collision env a tv tt m = .ok p) (h : m v = true) :
    p.1 v = true := by
  cases tv with
  | some l =>
    simp only [rear_end_collision, Except.ok.injEq] at hok
    exact hok ▸ rear_end_loop_mono env a l m v h
  | none =>
    cases tt with
    | none => simp [rear_end_collision] at hok
    | some tt' =>
      simp only [rear_end_collision, Except.ok.injEq] at hok
      exact hok ▸ rear_end_loop_mono env a _ m v h

/-- A whole `rear_end_collision` run never clears a completion entry. -/
theorem rear_end_trace_mono (a : ℚ) (tv : Option (List String))
    (tt : Option String) (envs : List Env) (m : String → Bool) (v : String)
    (h : m v = true) : (rear_end_trace a tv tt envs m).1 v = true := by
  induction envs generalizing m with
  | nil => exact h
  | cons e es ih =>
    unfold rear_end_trace
    cases hstep : rear_end_collision e a tv tt m with
    | error msg => exact h
    | ok p => exact ih p.1 (rear_end_collision_mono e a tv tt m p v hstep h)

/-- Each of the four halt commands addresses the vehicle it halts. -/
theorem haltCmds_vid (u : String) (c : Cmd) (hc : c ∈ haltCmds u) :
    c.vid = u := by
  simp only [haltCmds, List.mem_cons, List.not_mem_nil, or_false] at hc
  rcases hc with h | h | h | h <;> subst h <;> rfl

/-- Once a target's completion entry is `true`, one loop iteration can
address that vehicle only with halt commands triggered by a collision
report naming it as the victim. -/
theorem rear_end_vehicle_flagged_cmds (env : Env) (a : ℚ) (m : String → Bool)
    (w v : String) (hv : m v = true) (c : Cmd)
    (hc : c ∈ (rear_end_vehicle env a m w).2) (hvid : c.vid = v) :
    c ∈ haltCmds v ∧ ∃ coll ∈ env.collisions, coll.victim = v := by
  unfold rear_end_vehicle at hc
  by_cases hmw : m w = true
  · simp [hmw] at hc
  · have hwv : w ≠ v := fun h => hmw (h ▸ hv)
    rw [if_neg hmw] at hc
    by_cases hcon : w ∈ env.idList
    · rw [if_pos hcon] at hc
      cases hfind : env.collisions.find? (fun c => c.collider == w) with
      | none =>
        rw [hfind] at hc
        simp only [List.mem_cons, List.not_mem_nil, or_false] at hc
        rcases hc with h | h | h <;> subst h <;> exact absurd hvid hwv
      | some coll =>
        rw [hfind] at hc
        simp only [List.append_assoc, List.cons_append, List.nil_append,
          List.mem_append, List.mem_cons, List.not_mem_nil, or_false,
          or_assoc] at hc
        rcases hc with h | h | h | h | h
        · subst h; exact absurd hvid hwv
        · subst h; exact absurd hvid hwv
        · subst h; exact absurd hvid hwv
        · exact absurd ((haltCmds_vid w c h).symm.trans hvid) hwv
        · have hvic : coll.victim = v := (haltCmds_vid coll.victim c h).symm.trans hvid
          refine ⟨hvic ▸ h, coll, List.mem_of_find?_eq_some hfind, hvic⟩
    · rw [if_neg hcon] at hc
      simp at hc

/-- Once a target's completion entry is `true`, a whole loop pass can
address that vehicle only with victim-halt commands. -/
theorem rear_end_loop_flagged_cmds (env : Env) (a : ℚ) (l : List String)
    (m : String → Bool) (v : String) (hv : m v = true) (c : Cmd)
    (hc : c ∈ (rear_end_loop env a l m).2) (hvid : c.vid = v) :
    c ∈ haltCmds v ∧ ∃ coll ∈ env.collisions, coll.victim = v := by
  induction l generalizing m with
  | nil => simp [rear_end_loop] at hc
  | cons w rest ih =>
    unfold rear_end_loop at hc
    simp only [List.mem_append] at hc
    rcases hc with h | h
    · exact rear_end_vehicle_flagged_cmds env a m w v hv c h hvid
    · exact ih _ (rear_end_vehicle_mono env a m w v hv) h

/-- `emergency_brake` run from an already-set flag: nothing ever happens
again. -/
theorem emergency_brake_trace_true (vid : String) (sp dec : ℚ)
    (envs : List Env) :
    emergency_brake_trace vid sp dec envs true = (true, []) := by
  induction envs with
  | nil => rfl
  | cons e es ih => simp [emergency_brake_trace, emergency_brake, ih]

/-! ### Claim C1 -/

/-- First step of the C1 counterexample run: targets `"a"` and `"b"`;
this step's report says `"a"` rear-ended `"x"`, completing `"a"`. -/
def envC1a : Env :=
  { idList := ["a", "x", "b"], typeOf := fun _ => "CAV",
    lanePos := fun _ => 100, speed := fun _ => 20, laneOf := fun _ => "E0_0",
    collisions := [⟨"a", "x", 20, 5, "E0_0", 100⟩], time := 1 }

/-- Second step of the C1 counterexample run: `"b"` rear-ends the
already-completed `"a"`. -/
def envC1b : Env :=
  { idList := ["a", "x", "b"], typeOf := fun _ => "CAV",
    lanePos := fun _ => 110, speed := fun _ => 20, laneOf := fun _ => "E0_0",
    collisions := [⟨"b", "a", 20, 0, "E0_0", 110⟩], time := 2 }

/-- Completion map and commands after the first C1 counterexample step. -/
def c1Step1 : (String → Bool) × List Cmd :=
  rearOk (rear_end_collision envC1a 4 (some ["a", "b"]) none (fun _ => false))

/-- Completion map and commands after the second C1 counterexample step. -/
def c1Step2 : (String → Bool) × List Cmd :=
  rearOk (rear_end_collision envC1b 4 (some ["a", "b"]) none c1Step1.1)

/-- Claim C1, as stated, is false: after vehicle `"a"`'s completion flag
becomes true in step one, the second `rear_end_collision` step still
issues a control command addressed to `"a"` — the halt it receives as the
victim of target `"b"`'s collision report. -/
theorem C1_counterexample :
    c1Step1.1 "a" = true ∧ Cmd.setSpeed "a" 0 ∈ c1Step2.2 := by decide

/-- Claim C1 (amended): for both completion-flag policies the flag is
monotone — a true flag stays true over every step and every step
sequence, so it flips false-to-true at most once per run.  Once the flag
is true, `emergency_brake` issues no further commands at all, and
`rear_end_collision` never again processes that vehicle as a target: the
only commands that can still address it are the four halt commands it
receives as the victim of another target's collision report. -/
theorem C1_flags_monotone_and_quiescent :
    (∀ env vid sp dec, emergency_brake env vid sp dec true = (true, [])) ∧
    (∀ vid sp dec envs,
      emergency_brake_trace vid sp dec envs true = (true, [])) ∧
    (∀ env a l m v, m v = true → (rear_end_loop env a l m).1 v = true) ∧
    (∀ a tv tt envs m v, m v = true →
      (rear_end_trace a tv tt envs m).1 v = true) ∧
    (∀ env a l m v c, m v = true → c ∈ (rear_end_loop env a l m).2 →
      c.vid = v →
      c ∈ haltCmds v ∧ ∃ coll ∈ env.collisions, coll.victim = v) := by
  refine ⟨fun env vid sp dec => rfl,
    fun vid sp dec envs => emergency_brake_trace_true vid sp dec envs,
    fun env a l m v h => rear_end_loop_mono env a l m v h,
    fun a tv tt envs m v h => rear_end_trace_mono a tv tt envs m v h,
    fun env a l m v c hv hc hvid =>
      rear_end_loop_flagged_cmds env a l m v hv c hc hvid⟩

/-- A quiet step snapshot used to instantiate C1's hypotheses. -/
def envC1w : Env :=
  { idList := ["t", "ego"], typeOf := fun _ => "CAV_plat",
    lanePos := fun _ => 0, speed := fun _ => 10, laneOf := fun _ => "E0_0",
    collisions := [], time := 0 }

/-- Witness for C1: the amended theorem applied at a concrete input whose
hypotheses hold. -/
theorem C1_witness :
    ((fun _ : String => true) "t" = true) ∧
    (rear_end_loop envC1w 3 ["t"] (fun _ => true)).1 "t" = true ∧
    (rear_end_trace 3 (some ["t"]) none [envC1w] (fun _ => true)).1 "t" = true :=
  ⟨rfl,
   C1_flags_monotone_and_quiescent.2.2.1 envC1w 3 ["t"] (fun _ => true) "t" rfl,
   C1_flags_monotone_and_quiescent.2.2.2.1 3 (some ["t"]) none [envC1w]
     (fun _ => true) "t" rfl⟩

/-! ### Claim C2 -/

/-- Failing input for C2: target `"v1"` (distinct from `"ego"`) is past
the stop threshold with its own speed 20 m/s while `"ego"` drives at
10 m/s. -/
def envC2 : Env :=
  { idList := ["v1", "ego"], typeOf := fun _ => "CAV",
    lanePos := fun v => if v = "v1" then 600 else 0,
    speed := fun v => if v = "v1" then 20 else if v = "ego" then 10 else 0,
    laneOf := fun _ => "E0_0", collisions := [], time := 5 }

/-- Claim C2: the code evaluated at the failing input.  `emergency_brake`
does issue a bounded ramp-to-zero to the target and sets the flag, but
the ramp duration is `"ego"`'s speed over the deceleration magnitude
(10 / 2 = 5 s), not the targeted vehicle's own speed over it
(20 / 2 = 10 s), contradicting the claim and the function's stated
intent of stopping the monitored vehicle. -/
theorem C2_duration_from_ego_not_target :
    emergency_brake envC2 "v1" 500 2 false =
      (true, [.setSpeedMode "v1" 0, .setLaneChangeMode "v1" 0,
              .slowDown "v1" 0 5]) ∧
    envC2.speed "ego" / |(2 : ℚ)| = 5 ∧
    envC2.speed "v1" / |(2 : ℚ)| = 10 ∧
    (5 : ℚ) ≠ 10 := by
  have hego : (if ("ego" : String) = "v1" then (20 : ℚ) else 10) = 10 := by
    rw [if_neg (by decide)]
  refine ⟨?_, ?_, by norm_num [envC2], by norm_num⟩
  · norm_num [emergency_brake, envC2, hego]
  · norm_num [envC2, hego]

/-! ### Claim C3 -/

/-- Processing an unfinished, live target whose first matching collision
report is `coll` sets its completion entry and emits the halt commands
for both participants. -/
theorem rear_end_vehicle_collides (env : Env) (a : ℚ) (m : String → Bool)
    (v : String) (coll : Collision) (hm : m v = false) (hin : v ∈ env.idList)
    (hfind : env.collisions.find? (fun c => c.collider == v) = some coll) :
    (rear_end_vehicle env a m v).1 v = true ∧
    ∀ c ∈ haltCmds v ++ haltCmds coll.victim,
      c ∈ (rear_end_vehicle env a m v).2 := by
  unfold rear_end_vehicle
  rw [if_neg (by simp [hm]), if_pos hin, hfind]
  constructor
  · simp [updMap]
  · intro c hc
    simp only [List.mem_append] at hc ⊢
    tauto

/-- Processing a different vehicle leaves a target's completion entry
unchanged. -/
theorem rear_end_vehicle_other (env : Env) (a : ℚ) (m : String → Bool)
    (w v : String) (hwv : w ≠ v) :
    (rear_end_vehicle env a m w).1 v = m v := by
  have hupd : updMap m w true v = m v := by
    unfold updMap
    rw [if_neg (fun h => hwv h.symm)]
  unfold rear_end_vehicle
  split
  · rfl
  · split
    · split
      · rfl
      · exact hupd
    · exact hupd

/-- Loop-level version of `rear_end_vehicle_collides`: if an unfinished
target is live and this step's reports contain a collision it caused,
the pass completes the target and emits the halt commands for both
participants of the first such report. -/
theorem rear_end_loop_collides (env : Env) (a : ℚ) (l : List String)
    (m : String → Bool) (v : String) (coll : Collision)
    (hvl : v ∈ l) (hm : m v = false) (hin : v ∈ env.idList)
    (hfind : env.collisions.find? (fun c => c.collider == v) = some coll) :
    (rear_end_loop env a l m).1 v = true ∧
    ∀ c ∈ haltCmds v ++ haltCmds coll.victim,
      c ∈ (rear_end_loop env a l m).2 := by
  induction l generalizing m with
  | nil => cases hvl
  | cons w rest ih =>
    by_cases hwv : w = v
    · subst hwv
      have hv := rear_end_vehicle_collides env a m w coll hm hin hfind
      refine ⟨rear_end_loop_mono env a rest _ w hv.1, fun c hc => ?_⟩
      show c ∈ (rear_end_vehicle env a m w).2 ++ _
      exact List.mem_append.mpr (Or.inl (hv.2 c hc))
    · have hvrest : v ∈ rest := by
        rcases List.mem_cons.mp hvl with h | h
        · exact absurd h.symm hwv
        · exact h
      have hm' : (rear_end_vehicle env a m w).1 v = false :=
        (rear_end_vehicle_other env a m w v hwv).trans hm
      have hrest := ih _ hvrest hm'
      refine ⟨hrest.1, fun c hc => ?_⟩
      show c ∈ (rear_end_vehicle env a m w).2 ++ _
      exact List.mem_append.mpr (Or.inr (hrest.2 c hc))

/-- Claim C3 (amended): for an unfinished target `v` that is still in the
live-vehicle set, the first collision report with `collider = v` makes
the evaluation emit, for both collider and victim, zero-acceleration,
zero-speed and default safety/lane-change arbitration commands, and set
`completion[v]` — and only that evaluation does so: the entry was false
before, is true afterwards and on every later pass, and any later pass
can address `v` only with the halt commands it receives as the victim of
another target's collision report. -/
theorem C3_first_collision_completes :
    ∀ env a l m v coll, v ∈ l → m v = false → v ∈ env.idList →
      env.collisions.find? (fun c => c.collider == v) = some coll →
      ((rear_end_loop env a l m).1 v = true ∧
        ∀ c ∈ haltCmds v ++ haltCmds coll.victim,
          c ∈ (rear_end_loop env a l m).2) ∧
      (∀ env' l' m₂, m₂ v = true →
        (rear_end_loop env' a l' m₂).1 v = true ∧
        ∀ c ∈ (rear_end_loop env' a l' m₂).2, c.vid = v →
          c ∈ haltCmds v ∧ ∃ coll' ∈ env'.collisions, coll'.victim = v) := by
  intro env a l m v coll hvl hm hin hfind
  refine ⟨rear_end_loop_collides env a l m v coll hvl hm hin hfind,
    fun env' l' m₂ hm₂ => ⟨rear_end_loop_mono env' a l' m₂ v hm₂,
      fun c hc hvid =>
        rear_end_loop_flagged_cmds env' a l' m₂ v hm₂ c hc hvid⟩⟩

/-- First collision report of the C3 witness step. -/
def collC3w : Collision := ⟨"s", "u", 15, 3, "E0_0", 50⟩

/-- Step snapshot for the C3 witness: target `"s"` is live and this
step's reports say it rear-ended `"u"`. -/
def envC3w : Env :=
  { idList := ["s", "u"], typeOf := fun _ => "CAV",
    lanePos := fun _ => 50, speed := fun _ => 15, laneOf := fun _ => "E0_0",
    collisions := [collC3w], time := 3 }

/-- Witness for C3: the amended theorem applied at a concrete input whose
hypotheses hold. -/
theorem C3_witness :
    ("s" ∈ ["s"] ∧ (fun _ : String => false) "s" = false ∧
      "s" ∈ envC3w.idList ∧
      envC3w.collisions.find? (fun c => c.collider == "s") = some collC3w) ∧
    (rear_end_loop envC3w 4 ["s"] (fun _ => false)).1 "s" = true ∧
    Cmd.setSpeed "u" 0 ∈ (rear_end_loop envC3w 4 ["s"] (fun _ => false)).2 :=
  ⟨⟨by decide, rfl, by decide, by decide⟩,
   (C3_first_collision_completes envC3w 4 ["s"] (fun _ => false) "s" collC3w
      (by decide) rfl (by decide) (by decide)).1.1,
   (C3_first_collision_completes envC3w 4 ["s"] (fun _ => false) "s" collC3w
      (by decide) rfl (by decide) (by decide)).1.2 _ (by decide)⟩

/-- C3 counterexample, first scenario: target `"t"` is unfinished and a
report with `collider = "t"` is present, but `"t"` has already been
removed from the live list (as SUMO does to collided vehicles): the
evaluation flags `"t"` done and issues no commands at all. -/
def envC3a : Env :=
  { idList := ["x"], typeOf := fun _ => "CAV",
    lanePos := fun _ => 80, speed := fun _ => 18, laneOf := fun _ => "E0_0",
    collisions := [⟨"t", "x", 18, 2, "E0_0", 80⟩], time := 4 }

/-- C3 counterexample, second scenario, step one: target `"p"` collides
and completes. -/
def envC3b1 : Env :=
  { idList := ["p", "y", "q"], typeOf := fun _ => "CAV",
    lanePos := fun _ => 60, speed := fun _ => 22, laneOf := fun _ => "E0_0",
    collisions := [⟨"p", "y", 22, 6, "E0_0", 60⟩], time := 5 }

/-- C3 counterexample, second scenario, step two: target `"q"` rear-ends
the completed `"p"`. -/
def envC3b2 : Env :=
  { idList := ["p", "y", "q"], typeOf := fun _ => "CAV",
    lanePos := fun _ => 70, speed := fun _ => 22, laneOf := fun _ => "E0_0",
    collisions := [⟨"q", "p", 22, 0, "E0_0", 70⟩], time := 6 }

/-- State and commands after the first step of C3's second scenario. -/
def c3Step1 : (String → Bool) × List Cmd :=
  rearOk (rear_end_collision envC3b1 4 (some ["p", "q"]) none (fun _ => false))

/-- State and commands after the second step of C3's second scenario. -/
def c3Step2 : (String → Bool) × List Cmd :=
  rearOk (rear_end_collision envC3b2 4 (some ["p", "q"]) none c3Step1.1)

/-- Claim C3, as stated, is false on two counts: (1) with a matching
report but the target already gone from the live list, the evaluation
sets the flag without zeroing anyone — no command is issued at all;
(2) after `completion["p"]` is true, a later invocation still issues a
command for `"p"` (the victim halt from `"q"`'s collision). -/
theorem C3_counterexample :
    ((rearOk (rear_end_collision envC3a 4 (some ["t"]) none
        (fun _ => false))).1 "t" = true ∧
     (rearOk (rear_end_collision envC3a 4 (some ["t"]) none
        (fun _ => false))).2 = []) ∧
    (c3Step1.1 "p" = true ∧ Cmd.setAcceleration "p" 0 0 ∈ c3Step2.2) := by
  decide

/-! ### Claim C4 -/

/-- Processing one vehicle leaves every other vehicle's tracker entry
unchanged. -/
theorem vsl_vehicle_other (env : Env) (ts zmin zmax ds md : ℚ)
    (sl : String → Option ℚ) (w v : String) (hwv : w ≠ v) :
    (vsl_vehicle env ts zmin zmax ds md sl w).1 v = sl v := by
  have hupd : ∀ x, updTrk sl w x v = sl v := fun x => by
    unfold updTrk
    rw [if_neg (fun h => hwv h.symm)]
  unfold vsl_vehicle
  split
  · dsimp only
    split
    · split
      · exact hupd _
      · rfl
    · exact hupd _
  · rfl

/-- A vehicle the loop never visits keeps its tracker entry. -/
theorem vsl_loop_not_mem (env : Env) (ts zmin zmax ds md : ℚ)
    (l : List String) (sl : String → Option ℚ) (v : String) (h : v ∉ l) :
    (vsl_loop env ts zmin zmax ds md l sl).1 v = sl v := by
  induction l generalizing sl with
  | nil => rfl
  | cons w rest ih =>
    have hwv : w ≠ v := fun he => h (he ▸ List.mem_cons_self w rest)
    have hrest : v ∉ rest := fun he => h (List.mem_cons_of_mem w he)
    exact (ih _ hrest).trans (vsl_vehicle_other env ts zmin zmax ds md sl w v hwv)

/-- Processing an eligible vehicle that sits outside the zone pops its
tracker entry. -/
theorem vsl_vehicle_out (env : Env) (ts zmin zmax ds md : ℚ)
    (sl : String → Option ℚ) (v : String)
    (hcav : containsSub "CAV" (env.typeOf v) = true)
    (hzone : ¬(zmin < env.lanePos v ∧ env.lanePos v < zmax)) :
    (vsl_vehicle env ts zmin zmax ds md sl v).1 v = none := by
  unfold vsl_vehicle
  rw [if_pos hcav, if_neg hzone]
  simp [updTrk]

/-- Visiting an eligible out-of-zone vehicle anywhere in the loop leaves
it with no tracker entry. -/
theorem vsl_loop_out (env : Env) (ts zmin zmax ds md : ℚ)
    (l : List String) (sl : String → Option ℚ) (v : String) (hvl : v ∈ l)
    (hcav : containsSub "CAV" (env.typeOf v) = true)
    (hzone : ¬(zmin < env.lanePos v ∧ env.lanePos v < zmax)) :
    (vsl_loop env ts zmin zmax ds md l sl).1 v = none := by
  induction l generalizing sl with
  | nil => cases hvl
  | cons w rest ih =>
    by_cases hvrest : v ∈ rest
    · exact ih _ hvrest
    · have hwv : w = v := by
        rcases List.mem_cons.mp hvl with h | h
        · exact h.symm
        · exact absurd h hvrest
      subst hwv
      exact (vsl_loop_not_mem env ts zmin zmax ds md rest _ w hvrest).trans
        (vsl_vehicle_out env ts zmin zmax ds md sl w hcav hzone)

/-- Claim C4 (amended): after a `vsl_control` evaluation the tracking map
holds no entry for any vehicle that is in this step's live list, is
type-eligible (CAV), and sits outside the zone.  (The part of the claim
about vehicles that have left the simulation is false — see the
counterexample: the loop only visits live vehicles, so a departed
vehicle's entry is never popped.) -/
theorem C4_no_live_out_of_zone_entries :
    ∀ env vsl_mph zmin zmax ds md sl v, v ∈ env.idList →
      containsSub "CAV" (env.typeOf v) = true →
      ¬(zmin < env.lanePos v ∧ env.lanePos v < zmax) →
      (vsl_control env vsl_mph zmin zmax ds md sl).1 v = none :=
  fun env vsl_mph zmin zmax ds md sl v hvl hcav hzone =>
    vsl_loop_out env (vsl_mph * 0.44704) zmin zmax ds md env.idList sl v
      hvl hcav hzone

/-- Step snapshot for the C4 witness: the live CAV `"d1"` sits past the
zone end. -/
def envC4w : Env :=
  { idList := ["d1"], typeOf := fun _ => "CAV_basic",
    lanePos := fun _ => 200, speed := fun _ => 25, laneOf := fun _ => "E0_0",
    collisions := [], time := 7 }

/-- Witness for C4: the amended theorem applied at a concrete input whose
hypotheses hold. -/
theorem C4_witness :
    ("d1" ∈ envC4w.idList ∧ containsSub "CAV" (envC4w.typeOf "d1") = true) ∧
    (vsl_control envC4w 10 50 150 55.56 (-3) (fun _ => none)).1 "d1" = none :=
  ⟨⟨by decide, by decide⟩,
   C4_no_live_out_of_zone_entries envC4w 10 50 150 55.56 (-3) (fun _ => none)
     "d1" (by decide) (by decide) (by decide)⟩

/-- First step of the C4 counterexample: CAV `"c1"` is live, inside the
zone and above the target, so it gets a ramp and a tracker entry. -/
def envC4a : Env :=
  { idList := ["c1"], typeOf := fun _ => "CAV",
    lanePos := fun _ => 100, speed := fun _ => 30, laneOf := fun _ => "E0_0",
    collisions := [], time := 8 }

/-- Second step of the C4 counterexample: `"c1"` has left the simulation
(the live list is empty). -/
def envC4b : Env :=
  { idList := [], typeOf := fun _ => "CAV",
    lanePos := fun _ => 0, speed := fun _ => 0, laneOf := fun _ => "E0_0",
    collisions := [], time := 9 }

/-- Tracking map after the first C4 counterexample step. -/
def c4Trk1 : String → Option ℚ :=
  (vsl_control envC4a 10 50 150 55.56 (-3) (fun _ => none)).1

/-- Tracking map after the second C4 counterexample step. -/
def c4Trk2 : String → Option ℚ :=
  (vsl_control envC4b 10 50 150 55.56 (-3) c4Trk1).1

/-- Claim C4, as stated, is false: after the second evaluation the
tracker still holds `"c1"`'s ramp entry although `"c1"` has left the
simulation — the loop iterates only over live vehicles and never cleans
up entries of departed ones. -/
theorem C4_counterexample :
    envC4b.idList.contains "c1" = false ∧ c4Trk2 "c1" = some (10 * 0.44704) := by
  constructor
  · decide
  · have hcav : containsSub "CAV" (envC4a.typeOf "c1") = true := by decide
    have hzone : (50 : ℚ) < envC4a.lanePos "c1" ∧ envC4a.lanePos "c1" < 150 := by
      constructor <;> decide
    have hlt : (10 : ℚ) * 0.44704 < envC4a.speed "c1" := by
      show (10 : ℚ) * 0.44704 < 30
      norm_num
    show (vsl_loop envC4b _ 50 150 55.56 (-3) envC4b.idList c4Trk1).1 "c1"
      = some (10 * 0.44704)
    show c4Trk1 "c1" = some (10 * 0.44704)
    show (vsl_loop envC4a (10 * 0.44704) 50 150 55.56 (-3) ["c1"]
      (fun _ => none)).1 "c1" = some (10 * 0.44704)
    unfold vsl_loop vsl_vehicle
    rw [if_pos hcav, if_pos hzone, if_pos hlt]
    simp [vsl_loop, updTrk]

/-! ### Claim C9 -/

/-- Processing an eligible in-zone vehicle above the target issues
exactly the ramp command, with duration `(curr - target) / |max_decel|`. -/
theorem vsl_vehicle_ramp (env : Env) (ts zmin zmax ds md : ℚ)
    (sl : String → Option ℚ) (v : String)
    (hcav : containsSub "CAV" (env.typeOf v) = true)
    (hzone : zmin < env.lanePos v ∧ env.lanePos v < zmax)
    (hlt : ts < env.speed v) :
    (vsl_vehicle env ts zmin zmax ds md sl v).2
      = [Cmd.slowDown v ts ((env.speed v - ts) / |md|)] := by
  unfold vsl_vehicle
  rw [if_pos hcav, if_pos hzone, if_pos hlt]

/-- The loop emits the ramp command for every eligible in-zone vehicle
above the target. -/
theorem vsl_loop_ramp (env : Env) (ts zmin zmax ds md : ℚ)
    (l : List String) (sl : String → Option ℚ) (v : String) (hvl : v ∈ l)
    (hcav : containsSub "CAV" (env.typeOf v) = true)
    (hzone : zmin < env.lanePos v ∧ env.lanePos v < zmax)
    (hlt : ts < env.speed v) :
    Cmd.slowDown v ts ((env.speed v - ts) / |md|)
      ∈ (vsl_loop env ts zmin zmax ds md l sl).2 := by
  induction l generalizing sl with
  | nil => cases hvl
  | cons w rest ih =>
    rcases List.mem_cons.mp hvl with h | h
    · subst h
      show _ ∈ (vsl_vehicle env ts zmin zmax ds md sl v).2 ++ _
      rw [vsl_vehicle_ramp env ts zmin zmax ds md sl v hcav hzone hlt]
      exact List.mem_append.mpr (Or.inl (List.mem_singleton_self _))
    · show _ ∈ (vsl_vehicle env ts zmin zmax ds md sl w).2 ++ _
      exact List.mem_append.mpr (Or.inr (ih _ h))

/-- Step snapshot for C9's concrete instance: CAV `"c"` in the zone at
20 m/s. -/
def envC9 : Env :=
  { idList := ["c"], typeOf := fun _ => "CAV",
    lanePos := fun _ => 100, speed := fun _ => 20, laneOf := fun _ => "E0_0",
    collisions := [], time := 10 }

/-- Claim C9: for an eligible in-zone vehicle above the target,
`vsl_control` issues a ramp whose duration is
`(current speed - target speed) / |max deceleration|`; in particular with
current speed 20 m/s, target 10 m/s and deceleration magnitude 2 m/s²
the issued ramp lasts exactly 5 s. -/
theorem C9_ramp_duration_law :
    (∀ env vsl_mph zmin zmax ds md sl v, v ∈ env.idList →
      containsSub "CAV" (env.typeOf v) = true →
      zmin < env.lanePos v → env.lanePos v < zmax →
      vsl_mph * 0.44704 < env.speed v →
      Cmd.slowDown v (vsl_mph * 0.44704)
          ((env.speed v - vsl_mph * 0.44704) / |md|)
        ∈ (vsl_control env vsl_mph zmin zmax ds md sl).2) ∧
    ((10 / 0.44704 : ℚ) * 0.44704 = 10 ∧
      ((20 : ℚ) - 10) / |(-2 : ℚ)| = 5 ∧
      Cmd.slowDown "c" 10 5
        ∈ (vsl_control envC9 (10 / 0.44704) 50 150 55.56 (-2)
            (fun _ => none)).2) := by
  have hgen : ∀ env vsl_mph zmin zmax ds md sl v, v ∈ env.idList →
      containsSub "CAV" (env.typeOf v) = true →
      zmin < env.lanePos v → env.lanePos v < zmax →
      vsl_mph * 0.44704 < env.speed v →
      Cmd.slowDown v (vsl_mph * 0.44704)
          ((env.speed v - vsl_mph * 0.44704) / |md|)
        ∈ (vsl_control env vsl_mph zmin zmax ds md sl).2 :=
    fun env vsl_mph zmin zmax ds md sl v hvl hcav h1 h2 hlt =>
      vsl_loop_ramp env (vsl_mph * 0.44704) zmin zmax ds md env.idList sl v
        hvl hcav ⟨h1, h2⟩ hlt
  refine ⟨hgen, by norm_num, by norm_num, ?_⟩
  have h1 : (10 / 0.44704 : ℚ) * 0.44704 = 10 := by norm_num
  have h3 : (envC9.speed "c" - (10 / 0.44704 : ℚ) * 0.44704) / |(-2 : ℚ)| = 5 := by
    norm_num [envC9]
  have hmem := hgen envC9 (10 / 0.44704) 50 150 55.56 (-2) (fun _ => none) "c"
    (by decide) (by decide) (by decide) (by decide) (by norm_num [envC9])
  rw [h3, h1] at hmem
  exact hmem

/-- Step snapshot for the C9 witness: CAV `"w"` in the zone at 30 m/s. -/
def envC9w : Env :=
  { idList := ["w"], typeOf := fun _ => "CAV",
    lanePos := fun _ => 40, speed := fun _ => 30, laneOf := fun _ => "E0_0",
    collisions := [], time := 11 }

/-- Witness for C9: the ramp law applied at a concrete input whose
hypotheses hold. -/
theorem C9_witness :
    ("w" ∈ envC9w.idList ∧ (0 : ℚ) * 0.44704 < envC9w.speed "w") ∧
    Cmd.slowDown "w" ((0 : ℚ) * 0.44704)
        ((envC9w.speed "w" - (0 : ℚ) * 0.44704) / |(-3 : ℚ)|)
      ∈ (vsl_control envC9w 0 20 80 55.56 (-3) (fun _ => none)).2 :=
  ⟨⟨by decide, by simp [envC9w]⟩,
   C9_ramp_duration_law.1 envC9w 0 20 80 55.56 (-3) (fun _ => none) "w"
     (by decide) (by decide) (by decide) (by decide) (by simp [envC9w])⟩

/-! ### Claim C5 -/

/-- Claim C5 (amended): supplying neither the explicit id list nor the
type substring raises `ValueError` — but from inside the policy's step
function at its first invocation, i.e. after the session has already
opened, not before; supplying both is accepted, with the explicit id
list taking precedence over the substring; supplying exactly one is
accepted.  This holds for both dual-mode policies
(`rear_end_collision` and `set_target_speed`). -/
theorem C5_selection_validation :
    (∀ env a m, rear_end_collision env a none none m
      = .error "Must provide either target_vehicles or target_type") ∧
    (∀ env t r, set_target_speed env t r none none
      = .error "Must provide target_vehicles or target_type") ∧
    (∀ env a m l tt, rear_end_collision env a (some l) tt m
      = .ok (rear_end_loop env a l m)) ∧
    (∀ env a m tt', rear_end_collision env a none (some tt') m
      = .ok (rear_end_loop env a
          (env.idList.filter (fun vid => containsSub tt' (env.typeOf vid))) m)) ∧
    (∀ env t r l tt, set_target_speed env t r (some l) tt
      = .ok ((l.map (target_speed_vehicle env t r)).flatten)) ∧
    (∀ a e es, rear_end_run a none none (e :: es)
      = [.sessionOpen, .stepAdvance,
         .policyError "Must provide either target_vehicles or target_type"]) := by
  refine ⟨fun env a m => rfl, fun env t r => rfl, ?_, fun env a m tt' => rfl,
    ?_, fun a e es => rfl⟩
  · intro env a m l tt
    cases tt <;> rfl
  · intro env t r l tt
    cases tt <;> rfl

/-- Step snapshot for the C5 counterexample: `"a"` is a live non-CAV and
`"b"` a live CAV, so id-list and substring selection disagree. -/
def envC5 : Env :=
  { idList := ["a", "b"],
    typeOf := fun v => if v = "b" then "CAV" else "HDV",
    lanePos := fun _ => 10, speed := fun _ => 10, laneOf := fun _ => "E0_0",
    collisions := [], time := 12 }

/-- Claim C5, as stated, is false: supplying both the explicit id list
and the type substring is not an error — both policies run normally, and
only the explicit id `"a"` is acted on (the CAV `"b"` that the substring
would have matched receives nothing). -/
theorem C5_counterexample :
    rear_end_collision envC5 5 (some ["a"]) (some "CAV") (fun _ => false)
      = .ok ((fun _ => false),
          [.setSpeedMode "a" 0, .setLaneChangeMode "a" 0,
           .setAcceleration "a" 5 1]) ∧
    set_target_speed envC5 20 2 (some ["a"]) (some "CAV")
      = .ok [.setSpeedMode "a" 0, .setLaneChangeMode "a" 0,
             .setAcceleration "a" 2 1, .setMaxSpeed "a" 20] :=
  ⟨rfl, rfl⟩

/-! ### Claim C6 -/

/-- Claim C6: the runner evaluated at the failing configuration.  The
attack type `"scenario3"` passes the `ATTACK_FN` validation, yet on a
step whose mode equals that attack type no policy function is invoked —
the dispatch chain tests for `"rsu_spoofing"`, a key that the validation
itself rejects, so the registered composite attack is unreachable.  The
other three attack types dispatch if and only if the mode matches, and
the sampler schedule never depends on the mode. -/
theorem C6_scenario3_dispatch_gap :
    validateAttackType "scenario3" = .ok () ∧
    dispatchPolicy "scenario3" "scenario3" = false ∧
    validateAttackType "rsu_spoofing"
      = .error "Attack 'rsu_spoofing' not implemented" ∧
    dispatchPolicy "emergency_brake" "emergency_brake" = true ∧
    dispatchPolicy "rear_end" "rear_end" = true ∧
    dispatchPolicy "lane_closure" "lane_closure" = true ∧
    dispatchPolicy "base" "rear_end" = false ∧
    (∀ mode1 mode2 k, stepSamplers mode1 k = stepSamplers mode2 k) :=
  ⟨rfl, by decide, rfl, by decide, by decide, by decide,
   by decide, fun _ _ _ => rfl⟩

/-! ### Claim C8 -/

/-- Claim C8 (amended): when the attack is not yet complete and the
target vehicle is absent from the current live-vehicle set, the primary
`sysimpactcv` variant of `emergency_brake` leaves the completion flag
false and issues no commands that step (it keeps waiting), while the
`cookie-cutter` variant records success-by-default, setting the flag to
true with no commands. -/
theorem C8_absent_target_behavior :
    ∀ env vid sp dec, vid ∉ env.idList →
      emergency_brake env vid sp dec false = (false, []) ∧
      emergency_brake_cc env vid sp false = (true, []) := by
  intro env vid sp dec h
  constructor
  · unfold emergency_brake
    rw [if_neg (by simp), if_neg h]
  · unfold emergency_brake_cc
    rw [if_neg (by simp), if_neg h]

/-- Step snapshot for the C8 witness: `"gone"` is not live. -/
def envC8w : Env :=
  { idList := ["other"], typeOf := fun _ => "CAV",
    lanePos := fun _ => 5, speed := fun _ => 5, laneOf := fun _ => "E0_0",
    collisions := [], time := 13 }

/-- Witness for C8: the amended theorem applied at a concrete input whose
hypothesis holds. -/
theorem C8_witness :
    ("gone" ∉ envC8w.idList) ∧
    emergency_brake envC8w "gone" 500 2 false = (false, []) ∧
    emergency_brake_cc envC8w "gone" 500 false = (true, []) :=
  ⟨by decide,
   (C8_absent_target_behavior envC8w "gone" 500 2 (by decide)).1,
   (C8_absent_target_behavior envC8w "gone" 500 2 (by decide)).2⟩

/-- Step snapshot for the C8 counterexample: target `"v9"` is absent. -/
def envC8 : Env :=
  { idList := ["other"], typeOf := fun _ => "CAV",
    lanePos := fun _ => 5, speed := fun _ => 5, laneOf := fun _ => "E0_0",
    collisions := [], time := 14 }

/-- Claim C8, as stated, is false on the primary `sysimpactcv` variant:
with the attack incomplete and `"v9"` absent from the live list, the
evaluation leaves the completion flag false — it is not recorded as
success-by-default. -/
theorem C8_counterexample :
    envC8.idList.contains "v9" = false ∧
    (emergency_brake envC8 "v9" 500 2 false).1 = false := by decide

/-! ### Claim C7 -/

/-- The max-speed value a single command pins on vehicle `v`, if any. -/
def maxOf (v : String) : Cmd → Option ℚ
  | .setMaxSpeed w x => if w = v then some x else none
  | _ => none

/-- The last max-speed value a command list pins on vehicle `v`. -/
def lastMax (v : String) : List Cmd → Option ℚ
  | [] => none
  | c :: rest =>
    match lastMax v rest with
    | some x => some x
    | none => maxOf v c

/-- The mph value of the last schedule entry whose interval contains the
time, in the code's sense `t0 < t ≤ t1`. -/
def lastActive (t : ℚ) : List (ℚ × ℚ × ℚ) → Option ℚ
  | [] => none
  | (t0, t1, mph) :: rest =>
    match lastActive t rest with
    | some x => some x
    | none => if t0 < t ∧ t ≤ t1 then some mph else none

/-- `lastMax` over an append: the suffix wins when it pins anything. -/
theorem lastMax_append (v : String) (xs ys : List Cmd) :
    lastMax v (xs ++ ys)
      = match lastMax v ys with
        | some x => some x
        | none => lastMax v xs := by
  induction xs with
  | nil => cases h : lastMax v ys <;> simp [lastMax, h]
  | cons c rest ih =>
    show (match lastMax v (rest ++ ys) with
          | some x => some x
          | none => maxOf v c) = _
    rw [ih]
    cases h : lastMax v ys <;> cases h2 : lastMax v rest <;> simp [lastMax, h, h2]

/-- `_vsl_step` pins nothing on an unlisted vehicle. -/
theorem lastMax_vslStep_not_mem (vids : List String) (mph : ℚ) (v : String)
    (h : v ∉ vids) : lastMax v (vslStepCmds vids mph) = none := by
  induction vids with
  | nil => rfl
  | cons w rest ih =>
    have hwv : w ≠ v := fun he => h (he ▸ List.mem_cons_self w rest)
    have hrest : v ∉ rest := fun he => h (List.mem_cons_of_mem w he)
    show (match lastMax v (vslStepCmds rest mph) with
          | some x => some x
          | none => maxOf v (.setMaxSpeed w (mph * 0.44704))) = none
    rw [ih hrest]
    show (if w = v then some (mph * 0.44704) else none) = none
    rw [if_neg hwv]

/-- `_vsl_step` pins `mph * 0.44704` on every listed vehicle. -/
theorem lastMax_vslStep_mem (vids : List String) (mph : ℚ) (v : String)
    (h : v ∈ vids) : lastMax v (vslStepCmds vids mph) = some (mph * 0.44704) := by
  induction vids with
  | nil => cases h
  | cons w rest ih =>
    show (match lastMax v (vslStepCmds rest mph) with
          | some x => some x
          | none => maxOf v (.setMaxSpeed w (mph * 0.44704))) = _
    by_cases hrest : v ∈ rest
    · rw [ih hrest]
    · have hwv : w = v := by
        rcases List.mem_cons.mp h with h' | h'
        · exact h'.symm
        · exact absurd h' hrest
      rw [lastMax_vslStep_not_mem rest mph v hrest]
      show (if w = v then some (mph * 0.44704) else none) = _
      rw [if_pos hwv]

/-- A command list that pins nothing on `v` has no last pinned value. -/
theorem lastMax_of_no_setMax (v : String) (l : List Cmd)
    (h : ∀ c ∈ l, maxOf v c = none) : lastMax v l = none := by
  induction l with
  | nil => rfl
  | cons c rest ih =>
    show (match lastMax v rest with
          | some x => some x
          | none => maxOf v c) = none
    rw [ih (fun c' hc' => h c' (List.mem_cons_of_mem c hc'))]
    exact h c (List.mem_cons_self c rest)

/-- `lane_closure` never issues a max-speed command. -/
theorem lane_closure_no_setMax (env : Env) (lane_id : String) (mt : Int)
    (dmin dmax : ℚ) (v : String) :
    ∀ c ∈ lane_closure env lane_id mt dmin dmax, maxOf v c = none := by
  intro c hc
  simp only [lane_closure, List.mem_flatten, List.mem_map] at hc
  obtain ⟨l, ⟨vid, _hvid, rfl⟩, hcl⟩ := hc
  unfold lane_closure_vehicle at hcl
  split at hcl
  · dsimp only at hcl
    split at hcl
    · split at hcl
      · simp only [List.mem_cons, List.not_mem_nil, or_false] at hcl
        subst hcl; rfl
      · split at hcl
        · simp only [List.mem_cons, List.not_mem_nil, or_false] at hcl
          rcases hcl with h | h <;> subst h <;> rfl
        · simp at hcl
    · simp only [List.mem_cons, List.not_mem_nil, or_false] at hcl
      subst hcl; rfl
  · simp at hcl

/-- Every schedule entry whose interval contains the time pins its value
on every selected vehicle. -/
theorem schedCmds_entry_mem (vids : List String) (t : ℚ)
    (sched : List (ℚ × ℚ × ℚ)) (t0 t1 mph : ℚ) (he : (t0, t1, mph) ∈ sched)
    (hc : t0 < t ∧ t ≤ t1) (v : String) (hv : v ∈ vids) :
    Cmd.setMaxSpeed v (mph * 0.44704) ∈ schedCmds vids t sched := by
  induction sched with
  | nil => cases he
  | cons e rest ih =>
    obtain ⟨a, b, m⟩ := e
    show _ ∈ (if a < t ∧ t ≤ b then vslStepCmds vids m else [])
      ++ schedCmds vids t rest
    rcases List.mem_cons.mp he with h | h
    · cases h
      rw [if_pos hc]
      exact List.mem_append.mpr (Or.inl (List.mem_map.mpr ⟨v, hv, rfl⟩))
    · exact List.mem_append.mpr (Or.inr (ih h))

/-- The last value the schedule loop pins on a selected vehicle is the
canonical-unit value of the last entry containing the time. -/
theorem lastMax_schedCmds (vids : List String) (t : ℚ)
    (sched : List (ℚ × ℚ × ℚ)) (v : String) (h : v ∈ vids) :
    lastMax v (schedCmds vids t sched)
      = (lastActive t sched).map (· * 0.44704) := by
  induction sched with
  | nil => rfl
  | cons e rest ih =>
    obtain ⟨t0, t1, mph⟩ := e
    show lastMax v ((if t0 < t ∧ t ≤ t1 then vslStepCmds vids mph else [])
        ++ schedCmds vids t rest) = _
    rw [lastMax_append, ih]
    cases hla : lastActive t rest with
    | some x => simp [lastActive, hla]
    | none =>
      simp only [lastActive, hla, Option.map_none]
      by_cases hcond : t0 < t ∧ t ≤ t1
      · rw [if_pos hcond, lastMax_vslStep_mem vids mph v h]
        simp [hcond]
      · rw [if_neg hcond]
        show lastMax v [] = _
        simp [lastMax, hcond]

/-- Step snapshot for C7's concrete instance: CAV `"r"` in the shared
zone at simulation time 60. -/
def envC7 : Env :=
  { idList := ["r"], typeOf := fun _ => "CAV",
    lanePos := fun _ => 100, speed := fun _ => 20, laneOf := fun _ => "E1_0",
    collisions := [], time := 60 }

/-- Claim C7: with schedule `0-50:45, 50-100:30` and current time 60,
`rsu_spoofing` pins every in-zone type-matched vehicle's max speed to
`30 * 0.44704` m/s (13.4112, not the 45-entry's value); in general every
schedule entry whose interval contains the current time (in the code's
sense `t0 < t ≤ t1`) is applied to every selected vehicle, and the final
pinned value is the canonical-unit value of the last such entry. -/
theorem C7_schedule_interval_last_wins :
    (rsu_spoofing envC7 [(0, 50, 45), (50, 100, 30)] 1000 (50, 150)
        "E0_0" 1 3000 3500
      = [Cmd.setMaxSpeed "r" (30 * 0.44704)] ∧
     (30 : ℚ) * 0.44704 = 13.4112 ∧
     (30 : ℚ) * 0.44704 ≠ 45 * 0.44704) ∧
    (∀ env sched lct zone lane_id mt dmin dmax t0 t1 mph v,
      v ∈ rsuVids env zone → (t0, t1, mph) ∈ sched →
      t0 < env.time → env.time ≤ t1 →
      Cmd.setMaxSpeed v (mph * 0.44704)
        ∈ rsu_spoofing env sched lct zone lane_id mt dmin dmax) ∧
    (∀ env sched lct zone lane_id mt dmin dmax v,
      v ∈ rsuVids env zone →
      lastMax v (rsu_spoofing env sched lct zone lane_id mt dmin dmax)
        = (lastActive env.time sched).map (· * 0.44704)) := by
  refine ⟨⟨rfl, by norm_num, by norm_num⟩, ?_, ?_⟩
  · intro env sched lct zone lane_id mt dmin dmax t0 t1 mph v hv he h1 h2
    show _ ∈ schedCmds (rsuVids env zone) env.time sched ++ _
    exact List.mem_append.mpr (Or.inl
      (schedCmds_entry_mem _ env.time sched t0 t1 mph he ⟨h1, h2⟩ v hv))
  · intro env sched lct zone lane_id mt dmin dmax v hv
    show lastMax v (schedCmds (rsuVids env zone) env.time sched ++ _) = _
    rw [lastMax_append]
    have hlc : lastMax v (if lct ≤ env.time then
        lane_closure env lane_id mt dmin dmax else []) = none := by
      by_cases hcond : lct ≤ env.time
      · rw [if_pos hcond]
        exact lastMax_of_no_setMax v _
          (lane_closure_no_setMax env lane_id mt dmin dmax v)
      · rw [if_neg hcond]; rfl
    rw [hlc]
    exact lastMax_schedCmds _ env.time sched v hv

/-- Step snapshot for the C7 witness: CAV `"k"` in the shared zone at
time 60. -/
def envC7w : Env :=
  { idList := ["k"], typeOf := fun _ => "CAV",
    lanePos := fun _ => 70, speed := fun _ => 15, laneOf := fun _ => "E1_0",
    collisions := [], time := 60 }

/-- Witness for C7: the schedule theorem applied at a concrete input
whose hypotheses hold. -/
theorem C7_witness :
    ("k" ∈ rsuVids envC7w (50, 150) ∧
      ((50 : ℚ), (100 : ℚ), (30 : ℚ)) ∈
        [((0 : ℚ), (50 : ℚ), (45 : ℚ)), (50, 100, 30)] ∧
      (50 : ℚ) < envC7w.time ∧ envC7w.time ≤ 100) ∧
    Cmd.setMaxSpeed "k" ((30 : ℚ) * 0.44704)
      ∈ rsu_spoofing envC7w [(0, 50, 45), (50, 100, 30)] 1000 (50, 150)
          "E0_0" 1 3000 3500 :=
  ⟨⟨by decide, by decide, by decide, by decide⟩,
   C7_schedule_interval_last_wins.2.1 envC7w [(0, 50, 45), (50, 100, 30)]
     1000 (50, 150) "E0_0" 1 3000 3500 50 100 30 "k" (by decide) (by decide)
     (by decide) (by decide)⟩

/-! ### Claim C10 -/

/-- Processing any vehicle issues no command addressed to a vehicle that
is absent from the live list, provided this step's collision reports
only name live participants. -/
theorem rear_end_vehicle_absent_cmds (env : Env) (a : ℚ) (m : String → Bool)
    (w v : String) (hv : v ∉ env.idList)
    (hwf : ∀ coll ∈ env.collisions,
      coll.collider ∈ env.idList ∧ coll.victim ∈ env.idList) :
    ∀ c ∈ (rear_end_vehicle env a m w).2, c.vid ≠ v := by
  intro c hc
  unfold rear_end_vehicle at hc
  by_cases hmw : m w = true
  · simp [hmw] at hc
  · rw [if_neg hmw] at hc
    by_cases hw : w ∈ env.idList
    · have hwv : w ≠ v := fun h => hv (h ▸ hw)
      rw [if_pos hw] at hc
      cases hfind : env.collisions.find? (fun c => c.collider == w) with
      | none =>
        rw [hfind] at hc
        simp only [List.mem_cons, List.not_mem_nil, or_false] at hc
        rcases hc with h | h | h <;> subst h <;> exact hwv
      | some coll =>
        rw [hfind] at hc
        have hvic : coll.victim ∈ env.idList :=
          (hwf coll (List.mem_of_find?_eq_some hfind)).2
        have hvicv : coll.victim ≠ v := fun h => hv (h ▸ hvic)
        simp only [List.append_assoc, List.cons_append, List.nil_append,
          List.mem_append, List.mem_cons, List.not_mem_nil, or_false,
          or_assoc] at hc
        rcases hc with h | h | h | h | h
        · subst h; exact hwv
        · subst h; exact hwv
        · subst h; exact hwv
        · rw [haltCmds_vid w c h]; exact hwv
        · rw [haltCmds_vid coll.victim c h]; exact hvicv
    · rw [if_neg hw] at hc
      simp at hc

/-- Loop-level version of `rear_end_vehicle_absent_cmds`. -/
theorem rear_end_loop_absent_cmds (env : Env) (a : ℚ) (l : List String)
    (m : String → Bool) (v : String) (hv : v ∉ env.idList)
    (hwf : ∀ coll ∈ env.collisions,
      coll.collider ∈ env.idList ∧ coll.victim ∈ env.idList) :
    ∀ c ∈ (rear_end_loop env a l m).2, c.vid ≠ v := by
  induction l generalizing m with
  | nil => intro c hc; simp [rear_end_loop] at hc
  | cons w rest ih =>
    intro c hc
    have hc' : c ∈ (rear_end_vehicle env a m w).2
        ++ (rear_end_loop env a rest (rear_end_vehicle env a m w).1).2 := hc
    rcases List.mem_append.mp hc' with h | h
    · exact rear_end_vehicle_absent_cmds env a m w v hv hwf c h
    · exact ih _ c h

/-- Processing an absent target leaves its completion entry true
(it either was already true or is marked done on the spot). -/
theorem rear_end_vehicle_absent_flag (env : Env) (a : ℚ) (m : String → Bool)
    (v : String) (hv : v ∉ env.idList) :
    (rear_end_vehicle env a m v).1 v = true := by
  unfold rear_end_vehicle
  by_cases hmv : m v = true
  · rw [if_pos hmv]; exact hmv
  · rw [if_neg hmv, if_neg hv]
    simp [updMap]

/-- A listed, absent target's completion entry is true after any loop
pass that visits it. -/
theorem rear_end_loop_absent_flag (env : Env) (a : ℚ) (l : List String)
    (m : String → Bool) (v : String) (hvl : v ∈ l) (hv : v ∉ env.idList) :
    (rear_end_loop env a l m).1 v = true := by
  induction l generalizing m with
  | nil => cases hvl
  | cons w rest ih =>
    by_cases hvrest : v ∈ rest
    · exact ih _ hvrest
    · have hwv : w = v := by
        rcases List.mem_cons.mp hvl with h | h
        · exact h.symm
        · exact absurd h hvrest
      subst hwv
      exact rear_end_loop_mono env a rest _ w
        (rear_end_vehicle_absent_flag env a m w hv)

/-- A whole explicit-id `rear_end_collision` run issues no command to a
vehicle that is never live, when every step's collision reports only
name live participants. -/
theorem rear_end_trace_absent_cmds (a : ℚ) (l : List String) (v : String)
    (envs : List Env) (m : String → Bool)
    (habs : ∀ e' ∈ envs, v ∉ e'.idList)
    (hwf : ∀ e' ∈ envs, ∀ coll ∈ e'.collisions,
      coll.collider ∈ e'.idList ∧ coll.victim ∈ e'.idList) :
    ∀ c ∈ (rear_end_trace a (some l) none envs m).2, c.vid ≠ v := by
  induction envs generalizing m with
  | nil => intro c hc; simp [rear_end_trace] at hc
  | cons e es ih =>
    intro c hc
    have hc' : c ∈ (rear_end_loop e a l m).2
        ++ (rear_end_trace a (some l) none es (rear_end_loop e a l m).1).2 := hc
    rcases List.mem_append.mp hc' with h | h
    · exact rear_end_loop_absent_cmds e a l m v
        (habs e (List.mem_cons_self e es))
        (hwf e (List.mem_cons_self e es)) c h
    · exact ih _ (fun e' he' => habs e' (List.mem_cons_of_mem e he'))
        (fun e' he' => hwf e' (List.mem_cons_of_mem e he')) c h

/-- Claim C10: in explicit-id mode, a listed target that is absent from
the live-vehicle set (including one that never existed) has its
completion flag set to true on that very evaluation, and — for a session
in which the vehicle never appears and collision reports only name live
participants — no control command addressed to it is ever issued, on
that step or any later one. -/
theorem C10_absent_listed_target :
    ∀ a l v envs e es, envs = e :: es → v ∈ l →
      (∀ e' ∈ envs, v ∉ e'.idList) →
      (∀ e' ∈ envs, ∀ coll ∈ e'.collisions,
        coll.collider ∈ e'.idList ∧ coll.victim ∈ e'.idList) →
      (rearOk (rear_end_collision e a (some l) none
        (fun _ => false))).1 v = true ∧
      (rear_end_trace a (some l) none envs (fun _ => false)).1 v = true ∧
      ∀ c ∈ (rear_end_trace a (some l) none envs (fun _ => false)).2,
        c.vid ≠ v := by
  intro a l v envs e es henvs hvl habs hwf
  subst henvs
  have habs1 : v ∉ e.idList := habs e (List.mem_cons_self e es)
  have hflag1 : (rear_end_loop e a l (fun _ => false)).1 v = true :=
    rear_end_loop_absent_flag e a l _ v hvl habs1
  refine ⟨hflag1, ?_,
    rear_end_trace_absent_cmds a l v (e :: es) _ habs hwf⟩
  show (rear_end_trace a (some l) none es
    (rear_end_loop e a l (fun _ => false)).1).1 v = true
  exact rear_end_trace_mono a (some l) none es _ v hflag1

/-- Step snapshot for the C10 witness: target `"z"` never exists; the
only collision this step involves the live `"w1"` and `"w2"`. -/
def envC10w : Env :=
  { idList := ["w1", "w2"], typeOf := fun _ => "CAV",
    lanePos := fun _ => 30, speed := fun _ => 12, laneOf := fun _ => "E0_0",
    collisions := [⟨"w1", "w2", 12, 4, "E0_0", 30⟩], time := 15 }

/-- Witness for C10: the theorem applied at a concrete input whose
hypotheses hold. -/
theorem C10_witness :
    ("z" ∈ ["z"]) ∧
    (rearOk (rear_end_collision envC10w 2 (some ["z"]) none
      (fun _ => false))).1 "z" = true ∧
    ∀ c ∈ (rear_end_trace 2 (some ["z"]) none [envC10w]
      (fun _ => false)).2, c.vid ≠ "z" :=
  ⟨by decide,
   (C10_absent_listed_target 2 ["z"] "z" [envC10w] envC10w [] rfl
     (by decide) (by decide) (by decide)).1,
   (C10_absent_listed_target 2 ["z"] "z" [envC10w] envC10w [] rfl
     (by decide) (by decide) (by decide)).2.2⟩

end SysImpactCV
